import Mathlib

/-!
Verification of the action-dispatch and entity-resolution engine of the
WordPress category assistant (`src/App.tsx`, `src/types.ts`).

The dispatcher (`handleSendMessage` in `src/App.tsx`) is embedded as pure
Lean functions: the backend (catalog plus the update endpoint's
success/failure behaviour) is passed in explicitly, and each dispatch
returns the user-facing response, the list of update calls issued, and the
backend catalog after the call.  The service layer
(`services/wordpressService`) and the tail of `handleSendMessage` are not
present under `src/`; the definitions standing in for them are marked
`Modelled from the spec:` in their doc comments.
-/

namespace CannaCate

/-- SEO sub-record read via `yoast_head_json` (from `src/types.ts`). -/
structure YoastHeadJson where
  title : Option String
  description : Option String
deriving Repr, DecidableEq

/-- `WPCategory` from `src/types.ts`.  The TypeScript fields
`_yoast_wpseo_title`, `_yoast_wpseo_metadesc`, `_yoast_wpseo_focuskw` are
embedded without the leading underscore. -/
structure WPCategory where
  id : Nat
  name : String
  slug : String
  description : String
  yoast_head_json : Option YoastHeadJson
  yoast_wpseo_title : Option String
  yoast_wpseo_metadesc : Option String
  yoast_wpseo_focuskw : Option String
deriving Repr, DecidableEq

/-- The payload object of a parsed LLM response.  A field holds `none` when
the key is absent from the JSON object (JavaScript `undefined`). -/
structure Payload where
  categoryName : Option String := none
  name : Option String := none
  slug : Option String := none
  description : Option String := none
  metaTitle : Option String := none
  metaDescription : Option String := none
  focusKeyphrase : Option String := none
deriving Repr, DecidableEq

/-- A successfully JSON-decoded LLM response: an optional `action` string
and a `payload` object. -/
structure ParsedResponse where
  action : Option String
  payload : Payload
deriving Repr, DecidableEq

/-- JavaScript truthiness of an optional string: `undefined` and the empty
string are falsy, every other string is truthy. -/
def truthyOptStr (o : Option String) : Bool :=
  match o with
  | some s => !(s == "")
  | none => false

/-- JavaScript `s || d` for a string `s`: the empty string falls through to
the default. -/
def jsOrString (s d : String) : String :=
  if s == "" then d else s

/-- JavaScript `o || d` for an optional string `o` (optional chaining that
produced `undefined`, or an empty string, both fall through). -/
def jsOrOpt (o : Option String) (d : String) : String :=
  jsOrString (o.getD "") d

/-- Result shape destructured from `getCategoryByName` in `src/App.tsx`:
`const { exactMatch, suggestions } = await getCategoryByName(...)`. -/
structure ResolutionResult where
  exactMatch : Option WPCategory
  suggestions : List WPCategory
deriving Repr, DecidableEq

/-- Substring containment test used by the modelled suggestion scoring:
`sub` occurs inside `s`. -/
def substrContains (s sub : String) : Bool :=
  sub.isEmpty || (s.splitOn sub).length > 1

/-- Name normalization for case-insensitive comparison: lowercase every
character. -/
def lowerName (s : String) : String :=
  ⟨s.data.map Char.toLower⟩

/-- Modelled from the spec: `getCategoryByName` is implemented in
`services/wordpressService`, which is absent from `src/`; only its call
sites appear in `src/App.tsx`.  Spec §4.2: normalize query and candidate
names case-insensitively; if a candidate's normalized name equals the
normalized query return `ExactMatch` with that candidate, first match wins;
otherwise return up to 5 candidates scored by substring containment as
`Suggestions` (an exact match always suppresses suggestions). -/
def getCategoryByName (categories : List WPCategory) (queryName : String) :
    ResolutionResult :=
  match categories.find? (fun c => lowerName c.name == lowerName queryName) with
  | some c => { exactMatch := some c, suggestions := [] }
  | none =>
    { exactMatch := none
      suggestions :=
        (categories.filter (fun c =>
          substrContains (lowerName c.name) (lowerName queryName) ||
          substrContains (lowerName queryName) (lowerName c.name))).take 5 }

/-- The sparse update patch (`Partial<WPCategory>` built by the
`UPDATE_CATEGORY_METADATA` case): a field holds `none` when the key is not
set on the patch object. -/
structure UpdatePatch where
  description : Option String := none
  name : Option String := none
  slug : Option String := none
  yoast_wpseo_title : Option String := none
  yoast_wpseo_metadesc : Option String := none
  yoast_wpseo_focuskw : Option String := none
deriving Repr, DecidableEq

/-- `if (x) patch.f = x`: keep an optional string only when it is truthy
(present and non-empty). -/
def truthyStr (o : Option String) : Option String :=
  match o with
  | some s => if s == "" then none else some s
  | none => none

/-- Patch construction from `src/App.tsx` lines 169–176: `description` is
set whenever the payload key is present (`description !== undefined`), even
when empty; the five other fields are set only when truthy. -/
def buildUpdatePatch (p : Payload) : UpdatePatch :=
  { description := p.description
    name := truthyStr p.name
    slug := truthyStr p.slug
    yoast_wpseo_title := truthyStr p.metaTitle
    yoast_wpseo_metadesc := truthyStr p.metaDescription
    yoast_wpseo_focuskw := truthyStr p.focusKeyphrase }

/-- `Object.keys(updatePayload).length === 0`: no field was set. -/
def UpdatePatch.isEmpty (p : UpdatePatch) : Bool :=
  p.description.isNone && p.name.isNone && p.slug.isNone &&
  p.yoast_wpseo_title.isNone && p.yoast_wpseo_metadesc.isNone &&
  p.yoast_wpseo_focuskw.isNone

/-- A patch field overriding a category field that is itself optional. -/
def overrideOpt (p c : Option String) : Option String :=
  match p with
  | some v => some v
  | none => c

/-- Modelled from the spec: `updateCategoryMetadata` (the Directory Client
`update`) is implemented in `services/wordpressService`, absent from
`src/`.  Spec §4.1: sparse-patch semantics — only the fields present in the
patch are applied, absent fields are left untouched. -/
def applyPatch (c : WPCategory) (p : UpdatePatch) : WPCategory :=
  { c with
    description := p.description.getD c.description
    name := p.name.getD c.name
    slug := p.slug.getD c.slug
    yoast_wpseo_title := overrideOpt p.yoast_wpseo_title c.yoast_wpseo_title
    yoast_wpseo_metadesc := overrideOpt p.yoast_wpseo_metadesc c.yoast_wpseo_metadesc
    yoast_wpseo_focuskw := overrideOpt p.yoast_wpseo_focuskw c.yoast_wpseo_focuskw }

/-- Apply a patch to the catalog entry addressed by `i` (id-addressed
update, other entries untouched). -/
def patchIf (i : Nat) (p : UpdatePatch) (c : WPCategory) : WPCategory :=
  if c.id == i then applyPatch c p else c

/-- Modelled from the spec: the backend's catalog state after a successful
id-addressed sparse-patch update (spec §4.1, §6). -/
def applyUpdate (cats : List WPCategory) (i : Nat) (p : UpdatePatch) :
    List WPCategory :=
  cats.map (patchIf i p)

/-- The backend seen by one dispatch call: the current category catalog and
the update endpoint's rejection behaviour (`updateFails i p = true` means
the `update` call for id `i` with patch `p` raises `UpdateError`). -/
structure Backend where
  catalog : List WPCategory
  updateFails : Nat → UpdatePatch → Bool

/-- Outcome of one dispatch: the `actionResponse` string (or `none` when no
action branch produced one), the update calls issued to the Directory
Client in order, and the backend catalog after the call. -/
structure DispatchResult where
  actionResponse : Option String
  updateCalls : List (Nat × UpdatePatch)
  catalog : List WPCategory
deriving Repr, DecidableEq

/-- The result of a dispatch that performed no backend write and produced
no action response. -/
def noActionResult (be : Backend) : DispatchResult :=
  { actionResponse := none, updateCalls := [], catalog := be.catalog }

/-- Rendered description: `category.description || 'Non définie'`
(`src/App.tsx` line 148). -/
def descriptionOf (c : WPCategory) : String :=
  jsOrString c.description "Non définie"

/-- Rendered slug: `category.slug || 'Non défini'` (line 146). -/
def slugOf (c : WPCategory) : String :=
  jsOrString c.slug "Non défini"

/-- Rendered SEO title: `category.yoast_head_json?.title || 'Non défini'`
(line 143). -/
def yoastTitleOf (c : WPCategory) : String :=
  jsOrOpt (c.yoast_head_json.bind YoastHeadJson.title) "Non défini"

/-- Rendered SEO meta description:
`category.yoast_head_json?.description || 'Non définie'` (line 144). -/
def yoastDescOf (c : WPCategory) : String :=
  jsOrOpt (c.yoast_head_json.bind YoastHeadJson.description) "Non définie"

/-- Rendered focus keyphrase:
`category._yoast_wpseo_focuskw || 'Non définie'` (line 145). -/
def yoastFocusKwOf (c : WPCategory) : String :=
  jsOrOpt c.yoast_wpseo_focuskw "Non définie"

/-- The metadata answer template of the `GET_CATEGORY_METADATA` case
(`src/App.tsx` line 148). -/
def metadataMessage (c : WPCategory) : String :=
  "Voici les métadonnées pour \"" ++ c.name ++ "\":\n\n- Description: " ++
  descriptionOf c ++ "\n- Slug: " ++ slugOf c ++
  "\n- Titre SEO (Yoast): " ++ yoastTitleOf c ++
  "\n- Méta Description (Yoast): " ++ yoastDescOf c ++
  "\n- Expression-clé principale (Yoast): " ++ yoastFocusKwOf c

/-- The `LIST_CATEGORIES` case (`src/App.tsx` lines 129–132). -/
def listCategoriesCase (be : Backend) : DispatchResult :=
  { actionResponse :=
      some ("Voici les catégories de produits trouvées : \n\n - " ++
        String.intercalate "\n - " (be.catalog.map (fun c => c.name)))
    updateCalls := []
    catalog := be.catalog }

/-- The `GET_CATEGORY_METADATA` case (`src/App.tsx` lines 133–156). -/
def getMetadataCase (be : Backend) (p : Payload) : DispatchResult :=
  if !truthyOptStr p.categoryName then
    { actionResponse := some "Veuillez spécifier un nom de catégorie."
      updateCalls := []
      catalog := be.catalog }
  else
    let categoryNameToFind := p.categoryName.getD ""
    let res := getCategoryByName be.catalog categoryNameToFind
    match res.exactMatch with
    | some category =>
      { actionResponse := some (metadataMessage category)
        updateCalls := []
        catalog := be.catalog }
    | none =>
      if res.suggestions.length > 0 then
        { actionResponse :=
            some ("Je n'ai pas trouvé de correspondance exacte pour \"" ++
              categoryNameToFind ++
              "\".\n\nVouliez-vous dire l'une de ces catégories ?\n - " ++
              String.intercalate "\n - "
                (res.suggestions.map (fun s => "\"" ++ s.name ++ "\"")))
          updateCalls := []
          catalog := be.catalog }
      else
        { actionResponse :=
            some ("Désolé, je n'ai pas trouvé de catégorie nommée \"" ++
              categoryNameToFind ++ "\" ou s'en approchant.")
          updateCalls := []
          catalog := be.catalog }

/-- The `UPDATE_CATEGORY_METADATA` case (`src/App.tsx` lines 157–197).  The
`try`/`catch` around `updateCategoryMetadata` is embedded through
`be.updateFails`: when the call is rejected the catch branch's message is
produced, the catalog is unchanged, and the (single, unretried) call is
still recorded in `updateCalls`. -/
def updateMetadataCase (be : Backend) (p : Payload) : DispatchResult :=
  if !truthyOptStr p.categoryName then
    { actionResponse := some "Veuillez spécifier un nom de catégorie à mettre à jour."
      updateCalls := []
      catalog := be.catalog }
  else
    let categoryName := p.categoryName.getD ""
    let res := getCategoryByName be.catalog categoryName
    match res.exactMatch with
    | some categoryToUpdate =>
      let updatePayload := buildUpdatePatch p
      if updatePayload.isEmpty then
        { actionResponse :=
            some "Aucune modification à appliquer. Veuillez spécifier un champ à modifier."
          updateCalls := []
          catalog := be.catalog }
      else if be.updateFails categoryToUpdate.id updatePayload then
        { actionResponse :=
            some ("Une erreur est survenue lors de la mise à jour de la catégorie \"" ++
              categoryName ++ "\".")
          updateCalls := [(categoryToUpdate.id, updatePayload)]
          catalog := be.catalog }
      else
        { actionResponse :=
            some ("La catégorie \"" ++ jsOrOpt p.name categoryName ++
              "\" a été mise à jour avec succès.")
          updateCalls := [(categoryToUpdate.id, updatePayload)]
          catalog := applyUpdate be.catalog categoryToUpdate.id updatePayload }
    | none =>
      if res.suggestions.length > 0 then
        { actionResponse :=
            some ("Je n'ai pas trouvé de correspondance exacte pour \"" ++
              categoryName ++
              "\" à mettre à jour.\n\nVouliez-vous dire l'une de ces catégories ?\n - " ++
              String.intercalate "\n - "
                (res.suggestions.map (fun s => "\"" ++ s.name ++ "\"")))
          updateCalls := []
          catalog := be.catalog }
      else
        { actionResponse :=
            some ("Désolé, je n'ai pas trouvé de catégorie nommée \"" ++
              categoryName ++ "\" à mettre à jour.")
          updateCalls := []
          catalog := be.catalog }

/-- The `COPY_YOAST_META_DESC_TO_DESC` case (`src/App.tsx` lines 198–205):
the source only checks `categoryName` and `break`s in every path — no
resolution, no copy, no backend call, no response is constructed. -/
def copyCase (be : Backend) (p : Payload) : DispatchResult :=
  if !truthyOptStr p.categoryName then
    noActionResult be
  else
    noActionResult be

/-- The `switch(parsedResponse.action)` of `src/App.tsx` lines 128–205: an
unrecognized action string falls through every case and leaves
`actionResponse` null. -/
def dispatchAction (be : Backend) (a : String) (p : Payload) : DispatchResult :=
  if a = "LIST_CATEGORIES" then listCategoriesCase be
  else if a = "GET_CATEGORY_METADATA" then getMetadataCase be p
  else if a = "UPDATE_CATEGORY_METADATA" then updateMetadataCase be p
  else if a = "COPY_YOAST_META_DESC_TO_DESC" then copyCase be p
  else noActionResult be

/-- One dispatch of a parsed LLM response (`src/App.tsx` lines 124–205).
`pr = none` embeds the case where `JSON.parse(aiResponseText)` throws; the
catch handler is truncated from `src/App.tsx`, and per spec §4.3/§7 a parse
failure is never fatal: no action runs and no backend call is made.  A
falsy (`none` or empty) `action` fails the `if (parsedResponse.action ...)`
guard and likewise dispatches nothing. -/
def dispatch (be : Backend) (pr : Option ParsedResponse) : DispatchResult :=
  match pr with
  | none => noActionResult be
  | some r =>
    if truthyOptStr r.action then dispatchAction be (r.action.getD "") r.payload
    else noActionResult be

/-- Modelled from the spec: the tail of `handleSendMessage` (after line 205)
is truncated from `src/App.tsx`.  Spec §4.4: the no-op action responds with
the raw Interpreter output as a plain message, i.e. when no action branch
set `actionResponse` the raw LLM text is shown to the user verbatim. -/
def finalReply (rawText : String) (res : DispatchResult) : String :=
  res.actionResponse.getD rawText

/-- The four action strings recognized by the dispatcher's `switch`. -/
def knownActions : List String :=
  ["LIST_CATEGORIES", "GET_CATEGORY_METADATA", "UPDATE_CATEGORY_METADATA",
   "COPY_YOAST_META_DESC_TO_DESC"]

/-! ### Helper lemmas -/

theorem truthyStr_eq_some (o : Option String) (v : String) :
    truthyStr o = some v ↔ (o = some v ∧ v ≠ "") := by
  cases o with
  | none => simp [truthyStr]
  | some s =>
    have hts : truthyStr (some s) = if (s == "") = true then none else some s := rfl
    rw [hts]
    by_cases h : s = ""
    · rw [if_pos (by simp [h])]
      constructor
      · intro hc
        cases hc
      · rintro ⟨hv, hne⟩
        rw [Option.some.injEq] at hv
        exact absurd (hv ▸ h) hne
    · rw [if_neg (by simp [h]), Option.some.injEq]
      constructor
      · rintro rfl
        exact ⟨rfl, h⟩
      · rintro ⟨rfl, _⟩
        rfl

theorem getCategoryByName_exactMatch (cats : List WPCategory) (q : String) :
    (getCategoryByName cats q).exactMatch =
      cats.find? (fun c => lowerName c.name == lowerName q) := by
  unfold getCategoryByName
  cases h : cats.find? (fun c => lowerName c.name == lowerName q) <;> simp [h]

theorem dispatch_list_case (be : Backend) (p : Payload) :
    dispatch be (some ⟨some "LIST_CATEGORIES", p⟩) = listCategoriesCase be := rfl

theorem dispatch_get_case (be : Backend) (p : Payload) :
    dispatch be (some ⟨some "GET_CATEGORY_METADATA", p⟩) = getMetadataCase be p := rfl

theorem dispatch_update_case (be : Backend) (p : Payload) :
    dispatch be (some ⟨some "UPDATE_CATEGORY_METADATA", p⟩) =
      updateMetadataCase be p := rfl

theorem dispatch_copy_case (be : Backend) (p : Payload) :
    dispatch be (some ⟨some "COPY_YOAST_META_DESC_TO_DESC", p⟩) = copyCase be p := rfl

theorem updateMetadataCase_success (be : Backend) (p : Payload) (c : WPCategory)
    (hq : truthyOptStr p.categoryName = true)
    (hm : (getCategoryByName be.catalog (p.categoryName.getD "")).exactMatch = some c)
    (hne : (buildUpdatePatch p).isEmpty = false)
    (hf : be.updateFails c.id (buildUpdatePatch p) = false) :
    updateMetadataCase be p =
      { actionResponse :=
          some ("La catégorie \"" ++ jsOrOpt p.name (p.categoryName.getD "") ++
            "\" a été mise à jour avec succès.")
        updateCalls := [(c.id, buildUpdatePatch p)]
        catalog := applyUpdate be.catalog c.id (buildUpdatePatch p) } := by
  unfold updateMetadataCase
  rw [hq]
  simp only [Bool.not_true, Bool.false_eq_true, if_false, hm, hne, hf,
    Bool.false_eq_true, if_false]

theorem updateMetadataCase_failure (be : Backend) (p : Payload) (c : WPCategory)
    (hq : truthyOptStr p.categoryName = true)
    (hm : (getCategoryByName be.catalog (p.categoryName.getD "")).exactMatch = some c)
    (hne : (buildUpdatePatch p).isEmpty = false)
    (hf : be.updateFails c.id (buildUpdatePatch p) = true) :
    updateMetadataCase be p =
      { actionResponse :=
          some ("Une erreur est survenue lors de la mise à jour de la catégorie \"" ++
            p.categoryName.getD "" ++ "\".")
        updateCalls := [(c.id, buildUpdatePatch p)]
        catalog := be.catalog } := by
  unfold updateMetadataCase
  rw [hq]
  simp only [Bool.not_true, Bool.false_eq_true, if_false, hm, hne, hf, if_true]

/-! ### C1 -/

/-- C1: for every `UpdateCategoryMetadata` payload, the patch built by the
dispatcher contains exactly the fields explicitly present in the payload:
`description` is included whenever the payload key is present, even when it
is the empty string, while `name`, `slug`, `metaTitle`, `metaDescription`
and `focusKeyphrase` are included exactly when their payload value is
truthy (present and non-empty). -/
theorem update_patch_exact_fields (p : Payload) (v : String) :
    ((buildUpdatePatch p).description = some v ↔ p.description = some v) ∧
    ((buildUpdatePatch p).name = some v ↔ (p.name = some v ∧ v ≠ "")) ∧
    ((buildUpdatePatch p).slug = some v ↔ (p.slug = some v ∧ v ≠ "")) ∧
    ((buildUpdatePatch p).yoast_wpseo_title = some v ↔
      (p.metaTitle = some v ∧ v ≠ "")) ∧
    ((buildUpdatePatch p).yoast_wpseo_metadesc = some v ↔
      (p.metaDescription = some v ∧ v ≠ "")) ∧
    ((buildUpdatePatch p).yoast_wpseo_focuskw = some v ↔
      (p.focusKeyphrase = some v ∧ v ≠ "")) := by
  refine ⟨Iff.rfl, ?_, ?_, ?_, ?_, ?_⟩ <;> exact truthyStr_eq_some _ v

/-! ### C2 -/

/-- C2: an `UpdateCategoryMetadata` action that resolves to an exact match
but whose resulting patch is empty responds with the "nothing to change"
message, issues zero Directory Client update calls, and leaves the backend
catalog untouched. -/
theorem empty_patch_no_update (be : Backend) (p : Payload) (c : WPCategory)
    (hq : truthyOptStr p.categoryName = true)
    (hm : (getCategoryByName be.catalog (p.categoryName.getD "")).exactMatch = some c)
    (he : (buildUpdatePatch p).isEmpty = true) :
    (dispatch be (some ⟨some "UPDATE_CATEGORY_METADATA", p⟩)).actionResponse =
      some "Aucune modification à appliquer. Veuillez spécifier un champ à modifier." ∧
    (dispatch be (some ⟨some "UPDATE_CATEGORY_METADATA", p⟩)).updateCalls = [] ∧
    (dispatch be (some ⟨some "UPDATE_CATEGORY_METADATA", p⟩)).catalog = be.catalog := by
  rw [dispatch_update_case]
  unfold updateMetadataCase
  rw [hq]
  simp [hm, he]

/-- Witness for C2 at a concrete input: catalog `[Shoes]`, payload naming
`"Shoes"` with no updatable field present. -/
theorem empty_patch_no_update_witness :
    (dispatch
        { catalog := [⟨1, "Shoes", "shoes", "old", none, none, none, none⟩]
          updateFails := fun _ _ => false }
        (some ⟨some "UPDATE_CATEGORY_METADATA",
          { categoryName := some "Shoes" }⟩)).actionResponse =
      some "Aucune modification à appliquer. Veuillez spécifier un champ à modifier." ∧
    (dispatch
        { catalog := [⟨1, "Shoes", "shoes", "old", none, none, none, none⟩]
          updateFails := fun _ _ => false }
        (some ⟨some "UPDATE_CATEGORY_METADATA",
          { categoryName := some "Shoes" }⟩)).updateCalls = [] ∧
    (dispatch
        { catalog := [⟨1, "Shoes", "shoes", "old", none, none, none, none⟩]
          updateFails := fun _ _ => false }
        (some ⟨some "UPDATE_CATEGORY_METADATA",
          { categoryName := some "Shoes" }⟩)).catalog =
      [⟨1, "Shoes", "shoes", "old", none, none, none, none⟩] :=
  empty_patch_no_update
    { catalog := [⟨1, "Shoes", "shoes", "old", none, none, none, none⟩]
      updateFails := fun _ _ => false }
    { categoryName := some "Shoes" }
    ⟨1, "Shoes", "shoes", "old", none, none, none, none⟩
    (by decide) (by rfl) (by decide)

theorem jsOrString_ne_empty (s d : String) (hd : d ≠ "") : jsOrString s d ≠ "" := by
  unfold jsOrString
  by_cases h : s = ""
  · rw [if_pos (by simp [h])]
    exact hd
  · rw [if_neg (by simp [h])]
    exact h

/-! ### C3 -/

/-- C3: whenever the query name is case-insensitively equal to some
category name of the catalog, the modelled resolver returns an exact match
— precisely the first matching category in catalog order (the `find?`
result) — and an empty suggestion list, so `ExactMatch` and `Suggestions`
are mutually exclusive. -/
theorem resolve_exact_match (cats : List WPCategory) (q : String) (c : WPCategory)
    (hc : c ∈ cats) (hm : lowerName c.name = lowerName q) :
    ∃ c0, cats.find? (fun x => lowerName x.name == lowerName q) = some c0 ∧
      getCategoryByName cats q = { exactMatch := some c0, suggestions := [] } := by
  have hsome : (cats.find? (fun x => lowerName x.name == lowerName q)).isSome := by
    rw [List.find?_isSome]
    exact ⟨c, hc, by simp [hm]⟩
  obtain ⟨c0, h0⟩ := Option.isSome_iff_exists.mp hsome
  refine ⟨c0, h0, ?_⟩
  unfold getCategoryByName
  rw [h0]

/-- Witness for C3: catalog `[Shoes, Shirts]`, query `"shoes"`. -/
theorem resolve_exact_match_witness :
    ∃ c0, ([⟨1, "Shoes", "shoes", "", none, none, none, none⟩,
            ⟨2, "Shirts", "shirts", "", none, none, none, none⟩] :
        List WPCategory).find?
          (fun x => lowerName x.name == lowerName "shoes") = some c0 ∧
      getCategoryByName
          [⟨1, "Shoes", "shoes", "", none, none, none, none⟩,
           ⟨2, "Shirts", "shirts", "", none, none, none, none⟩] "shoes" =
        { exactMatch := some c0, suggestions := [] } :=
  resolve_exact_match
    [⟨1, "Shoes", "shoes", "", none, none, none, none⟩,
     ⟨2, "Shirts", "shirts", "", none, none, none, none⟩]
    "shoes" ⟨1, "Shoes", "shoes", "", none, none, none, none⟩
    (by simp) (by rfl)

/-! ### C4 -/

/-- C4 counterexample: on an empty catalog the `LIST_CATEGORIES` case has
no special branch — it responds with the bullet-list template whose item
part is empty (the header followed by a dangling `" - "` bullet), not with
a "no categories found" message, contradicting the claim. -/
theorem list_empty_catalog_counterexample :
    (dispatch { catalog := [], updateFails := fun _ _ => false }
        (some ⟨some "LIST_CATEGORIES", {}⟩)).actionResponse =
      some "Voici les catégories de produits trouvées : \n\n - " := rfl

/-- C4 amended: for the `ListCategories` action on an empty catalog the
dispatcher responds with the list header followed by a single empty bullet
item; the code has no dedicated "no categories found" message. -/
theorem list_empty_catalog_response (be : Backend) (p : Payload)
    (h : be.catalog = []) :
    (dispatch be (some ⟨some "LIST_CATEGORIES", p⟩)).actionResponse =
      some "Voici les catégories de produits trouvées : \n\n - " := by
  rw [dispatch_list_case]
  unfold listCategoriesCase
  rw [h]
  rfl

/-- Witness for C4's amended statement at a concrete empty-catalog backend. -/
theorem list_empty_catalog_response_witness :
    (dispatch { catalog := [], updateFails := fun _ _ => false }
        (some ⟨some "LIST_CATEGORIES",
          { categoryName := some "unused" }⟩)).actionResponse =
      some "Voici les catégories de produits trouvées : \n\n - " :=
  list_empty_catalog_response
    { catalog := [], updateFails := fun _ _ => false }
    { categoryName := some "unused" } rfl

/-! ### C5 -/

/-- C5: the `COPY_YOAST_META_DESC_TO_DESC` case of `src/App.tsx` (lines
198–205) is a stub — it checks `categoryName` and `break`s on every path,
with only a placeholder comment where the copy logic should be.  Evaluated
at a category whose SEO meta description is set, the dispatcher performs no
resolution, issues no update call, leaves the catalog untouched and
constructs no response: the copy behaviour the claim (and spec §4.4)
requires is absent from the code. -/
theorem copy_action_does_nothing :
    dispatch
        { catalog := [⟨1, "Shoes", "shoes", "old",
            none, none, some "Résumé SEO", none⟩]
          updateFails := fun _ _ => false }
        (some ⟨some "COPY_YOAST_META_DESC_TO_DESC",
          { categoryName := some "Shoes" }⟩) =
      { actionResponse := none
        updateCalls := []
        catalog := [⟨1, "Shoes", "shoes", "old",
          none, none, some "Résumé SEO", none⟩] } := rfl

/-! ### C6 -/

/-- C6: a `GetCategoryMetadata` action that resolves to an exact match
responds with the five-field metadata template (description, slug, SEO
title, SEO meta description, focus keyphrase); every absent field renders
as its explicit "Non défini"/"Non définie" placeholder and no rendered
field is ever the blank string, so no field is silently omitted. -/
theorem get_metadata_all_fields (be : Backend) (p : Payload) (c : WPCategory)
    (hq : truthyOptStr p.categoryName = true)
    (hm : (getCategoryByName be.catalog (p.categoryName.getD "")).exactMatch = some c) :
    (dispatch be (some ⟨some "GET_CATEGORY_METADATA", p⟩)).actionResponse =
      some (metadataMessage c) ∧
    descriptionOf c ≠ "" ∧ slugOf c ≠ "" ∧ yoastTitleOf c ≠ "" ∧
    yoastDescOf c ≠ "" ∧ yoastFocusKwOf c ≠ "" ∧
    (c.yoast_head_json.bind YoastHeadJson.title = none →
      yoastTitleOf c = "Non défini") ∧
    (c.yoast_head_json.bind YoastHeadJson.description = none →
      yoastDescOf c = "Non définie") ∧
    (c.yoast_wpseo_focuskw = none → yoastFocusKwOf c = "Non définie") := by
  refine ⟨?_, jsOrString_ne_empty _ _ (by decide), jsOrString_ne_empty _ _ (by decide),
    jsOrString_ne_empty _ _ (by decide), jsOrString_ne_empty _ _ (by decide),
    jsOrString_ne_empty _ _ (by decide), ?_, ?_, ?_⟩
  · rw [dispatch_get_case]
    unfold getMetadataCase
    rw [hq]
    simp [hm]
  · intro h
    unfold yoastTitleOf
    rw [h]
    rfl
  · intro h
    unfold yoastDescOf
    rw [h]
    rfl
  · intro h
    unfold yoastFocusKwOf
    rw [h]
    rfl

/-- Witness for C6: a category with no SEO fields set renders the
placeholder template. -/
theorem get_metadata_all_fields_witness :
    (dispatch
        { catalog := [⟨7, "Shoes", "", "", none, none, none, none⟩]
          updateFails := fun _ _ => false }
        (some ⟨some "GET_CATEGORY_METADATA",
          { categoryName := some "shoes" }⟩)).actionResponse =
      some (metadataMessage ⟨7, "Shoes", "", "", none, none, none, none⟩) ∧
    descriptionOf (⟨7, "Shoes", "", "", none, none, none, none⟩ : WPCategory) ≠ "" ∧
    slugOf (⟨7, "Shoes", "", "", none, none, none, none⟩ : WPCategory) ≠ "" ∧
    yoastTitleOf (⟨7, "Shoes", "", "", none, none, none, none⟩ : WPCategory) ≠ "" ∧
    yoastDescOf (⟨7, "Shoes", "", "", none, none, none, none⟩ : WPCategory) ≠ "" ∧
    yoastFocusKwOf (⟨7, "Shoes", "", "", none, none, none, none⟩ : WPCategory) ≠ "" ∧
    ((⟨7, "Shoes", "", "", none, none, none, none⟩ : WPCategory).yoast_head_json.bind
        YoastHeadJson.title = none →
      yoastTitleOf ⟨7, "Shoes", "", "", none, none, none, none⟩ = "Non défini") ∧
    ((⟨7, "Shoes", "", "", none, none, none, none⟩ : WPCategory).yoast_head_json.bind
        YoastHeadJson.description = none →
      yoastDescOf ⟨7, "Shoes", "", "", none, none, none, none⟩ = "Non définie") ∧
    ((⟨7, "Shoes", "", "", none, none, none, none⟩ : WPCategory).yoast_wpseo_focuskw = none →
      yoastFocusKwOf ⟨7, "Shoes", "", "", none, none, none, none⟩ = "Non définie") :=
  get_metadata_all_fields
    { catalog := [⟨7, "Shoes", "", "", none, none, none, none⟩]
      updateFails := fun _ _ => false }
    { categoryName := some "shoes" }
    ⟨7, "Shoes", "", "", none, none, none, none⟩
    (by decide) (by rfl)

theorem dispatch_some (be : Backend) (r : ParsedResponse) :
    dispatch be (some r) =
      if truthyOptStr r.action then dispatchAction be (r.action.getD "") r.payload
      else noActionResult be := rfl

/-! ### C7 -/

/-- C7: when the backend update call for an `UpdateCategoryMetadata` action
signals `UpdateError`, the error is absorbed inside the action branch (the
dispatch still yields a result), the response is the failure message naming
the requested category, exactly one update call was issued (no retry), and
the catalog is unchanged. -/
theorem update_error_caught (be : Backend) (p : Payload) (c : WPCategory)
    (hq : truthyOptStr p.categoryName = true)
    (hm : (getCategoryByName be.catalog (p.categoryName.getD "")).exactMatch = some c)
    (hne : (buildUpdatePatch p).isEmpty = false)
    (hf : be.updateFails c.id (buildUpdatePatch p) = true) :
    (dispatch be (some ⟨some "UPDATE_CATEGORY_METADATA", p⟩)).actionResponse =
      some ("Une erreur est survenue lors de la mise à jour de la catégorie \"" ++
        p.categoryName.getD "" ++ "\".") ∧
    (dispatch be (some ⟨some "UPDATE_CATEGORY_METADATA", p⟩)).updateCalls =
      [(c.id, buildUpdatePatch p)] ∧
    (dispatch be (some ⟨some "UPDATE_CATEGORY_METADATA", p⟩)).catalog = be.catalog := by
  rw [dispatch_update_case, updateMetadataCase_failure be p c hq hm hne hf]
  exact ⟨rfl, rfl, rfl⟩

/-- Witness for C7: a backend that rejects every update; the single call is
recorded and the failure message names the category. -/
theorem update_error_caught_witness :
    (dispatch
        { catalog := [⟨3, "Shoes", "shoes", "d", none, none, none, none⟩]
          updateFails := fun _ _ => true }
        (some ⟨some "UPDATE_CATEGORY_METADATA",
          { categoryName := some "Shoes", metaTitle := some "T"}⟩)).actionResponse =
      some ("Une erreur est survenue lors de la mise à jour de la catégorie \"" ++
        (some "Shoes").getD "" ++ "\".") ∧
    (dispatch
        { catalog := [⟨3, "Shoes", "shoes", "d", none, none, none, none⟩]
          updateFails := fun _ _ => true }
        (some ⟨some "UPDATE_CATEGORY_METADATA",
          { categoryName := some "Shoes", metaTitle := some "T"}⟩)).updateCalls =
      [(3, buildUpdatePatch { categoryName := some "Shoes", metaTitle := some "T"})] ∧
    (dispatch
        { catalog := [⟨3, "Shoes", "shoes", "d", none, none, none, none⟩]
          updateFails := fun _ _ => true }
        (some ⟨some "UPDATE_CATEGORY_METADATA",
          { categoryName := some "Shoes", metaTitle := some "T"}⟩)).catalog =
      [⟨3, "Shoes", "shoes", "d", none, none, none, none⟩] :=
  update_error_caught
    { catalog := [⟨3, "Shoes", "shoes", "d", none, none, none, none⟩]
      updateFails := fun _ _ => true }
    { categoryName := some "Shoes", metaTitle := some "T"}
    ⟨3, "Shoes", "shoes", "d", none, none, none, none⟩
    (by decide) (by rfl) (by decide) (by rfl)

/-! ### C8 -/

/-- C8: a raw LLM text whose JSON decoding fails, or whose decoded object
has no `action`, or an action string outside the four recognized ones,
dispatches nothing: no backend call, no catalog change, no action response
— and the user-facing reply is the raw text verbatim.  (The decoding
outcome is passed explicitly: `none` embeds a `JSON.parse` throw, which the
dispatcher absorbs rather than re-raising.) -/
theorem parse_failure_noop (be : Backend) (raw : String) (pr : Option ParsedResponse)
    (h : pr = none ∨ ∃ r, pr = some r ∧
      (r.action = none ∨ ∃ s, r.action = some s ∧ s ∉ knownActions)) :
    dispatch be pr = noActionResult be ∧
    finalReply raw (dispatch be pr) = raw := by
  have hd : dispatch be pr = noActionResult be := by
    rcases h with rfl | ⟨r, rfl, hr⟩
    · rfl
    · rcases hr with hnone | ⟨s, hs, hmem⟩
      · rw [dispatch_some, hnone]
        rfl
      · rw [dispatch_some, hs]
        by_cases hse : s = ""
        · subst hse
          rfl
        · have ht : truthyOptStr (some s) = true := by
            simp [truthyOptStr, hse]
          simp only [ht, if_true, Option.getD_some]
          simp only [knownActions, List.mem_cons, List.not_mem_nil, or_false,
            not_or] at hmem
          unfold dispatchAction
          rw [if_neg hmem.1, if_neg hmem.2.1, if_neg hmem.2.2.1, if_neg hmem.2.2.2]
  refine ⟨hd, ?_⟩
  rw [hd]
  rfl

/-- Witness for C8: an unrecognized action string leaves the raw text as
the reply and performs no backend call. -/
theorem parse_failure_noop_witness :
    dispatch
        { catalog := [⟨1, "Shoes", "shoes", "", none, none, none, none⟩]
          updateFails := fun _ _ => false }
        (some ⟨some "DELETE_CATEGORY", { categoryName := some "Shoes" }⟩) =
      noActionResult
        { catalog := [⟨1, "Shoes", "shoes", "", none, none, none, none⟩]
          updateFails := fun _ _ => false } ∧
    finalReply "Bonjour, que puis-je faire ?"
        (dispatch
          { catalog := [⟨1, "Shoes", "shoes", "", none, none, none, none⟩]
            updateFails := fun _ _ => false }
          (some ⟨some "DELETE_CATEGORY", { categoryName := some "Shoes" }⟩)) =
      "Bonjour, que puis-je faire ?" :=
  parse_failure_noop
    { catalog := [⟨1, "Shoes", "shoes", "", none, none, none, none⟩]
      updateFails := fun _ _ => false }
    "Bonjour, que puis-je faire ?"
    (some ⟨some "DELETE_CATEGORY", { categoryName := some "Shoes" }⟩)
    (Or.inr ⟨⟨some "DELETE_CATEGORY", { categoryName := some "Shoes" }⟩, rfl,
      Or.inr ⟨"DELETE_CATEGORY", rfl, by decide⟩⟩)

/-! ### C9 helpers -/

theorem option_getD_idem (o : Option String) (x : String) :
    o.getD (o.getD x) = o.getD x := by
  cases o <;> rfl

theorem overrideOpt_idem (p c : Option String) :
    overrideOpt p (overrideOpt p c) = overrideOpt p c := by
  cases p <;> rfl

theorem applyPatch_id (c : WPCategory) (q : UpdatePatch) :
    (applyPatch c q).id = c.id := rfl

theorem applyPatch_idem (c : WPCategory) (q : UpdatePatch) :
    applyPatch (applyPatch c q) q = applyPatch c q := by
  unfold applyPatch
  simp [option_getD_idem, overrideOpt_idem]

theorem patchIf_idem (i : Nat) (q : UpdatePatch) (c : WPCategory) :
    patchIf i q (patchIf i q c) = patchIf i q c := by
  by_cases h : (c.id == i) = true
  · have h2 : ((applyPatch c q).id == i) = true := h
    simp only [patchIf, if_pos h, if_pos h2]
    exact applyPatch_idem c q
  · simp only [patchIf, if_neg h]

theorem applyUpdate_idem (l : List WPCategory) (i : Nat) (q : UpdatePatch) :
    applyUpdate (applyUpdate l i q) i q = applyUpdate l i q := by
  unfold applyUpdate
  rw [List.map_map]
  have hcomp : patchIf i q ∘ patchIf i q = patchIf i q :=
    funext fun c => patchIf_idem i q c
  rw [hcomp]

theorem find_after_update_id (l : List WPCategory) (q : String) (c c2 : WPCategory)
    (qp : UpdatePatch)
    (hp : l.Pairwise (fun a b => lowerName a.name ≠ lowerName b.name))
    (h1 : l.find? (fun x => lowerName x.name == lowerName q) = some c)
    (h2 : (applyUpdate l c.id qp).find?
      (fun x => lowerName x.name == lowerName q) = some c2) :
    c2.id = c.id := by
  have hc_mem : c ∈ l := List.mem_of_find?_eq_some h1
  have hc_match := List.find?_some h1
  have hc2_mem : c2 ∈ applyUpdate l c.id qp := List.mem_of_find?_eq_some h2
  have hc2_match := List.find?_some h2
  rw [applyUpdate, List.mem_map] at hc2_mem
  obtain ⟨a, ha_mem, ha_eq⟩ := hc2_mem
  by_cases hid : (a.id == c.id) = true
  · have hc2a : c2 = applyPatch a qp := by
      rw [← ha_eq]
      unfold patchIf
      rw [if_pos hid]
    rw [hc2a, applyPatch_id]
    exact by simpa using hid
  · have hc2a : c2 = a := by
      rw [← ha_eq]
      unfold patchIf
      rw [if_neg hid]
    rw [hc2a] at hc2_match ⊢
    by_cases hac : a = c
    · rw [hac]
    · exfalso
      have hsym : Symmetric (fun a b : WPCategory => lowerName a.name ≠ lowerName b.name) :=
        fun x y hxy e => hxy e.symm
      have hnames := hp.forall hsym ha_mem hc_mem hac
      have ha_eq_q : lowerName a.name = lowerName q := by simpa using hc2_match
      have hc_eq_q : lowerName c.name = lowerName q := by simpa using hc_match
      exact hnames (ha_eq_q.trans hc_eq_q.symm)

/-! ### C9 -/

/-- Catalog with two case-insensitively equal category names, used to
refute the unconditional idempotence claim. -/
def c9Catalog : List WPCategory :=
  [⟨1, "Shoes", "shoes", "", none, none, none, none⟩,
   ⟨2, "shoes", "shoes-2", "", none, none, none, none⟩]

/-- A rename update addressing the duplicated name. -/
def c9Parsed : Option ParsedResponse :=
  some ⟨some "UPDATE_CATEGORY_METADATA",
    { categoryName := some "shoes", name := some "Boots" }⟩

def c9Backend : Backend :=
  { catalog := c9Catalog, updateFails := fun _ _ => false }

/-- The backend as the second, identical dispatch sees it: the catalog left
by the first dispatch. -/
def c9Backend2 : Backend :=
  { catalog := (dispatch c9Backend c9Parsed).catalog
    updateFails := fun _ _ => false }

/-- C9 counterexample: with two categories whose names differ only in case,
issuing the same successful rename update twice succeeds both times with
the same success message, yet the second application changes the catalog
again (the resolver's first-match-wins rule picks a different category once
the first one has been renamed), so the final state after the second run
differs from the state after the first — refuting the claim as stated. -/
theorem update_idempotent_counterexample :
    (dispatch c9Backend c9Parsed).actionResponse =
      some "La catégorie \"Boots\" a été mise à jour avec succès." ∧
    (dispatch c9Backend2 c9Parsed).actionResponse =
      some "La catégorie \"Boots\" a été mise à jour avec succès." ∧
    (dispatch c9Backend2 c9Parsed).catalog ≠ (dispatch c9Backend c9Parsed).catalog := by
  refine ⟨rfl, rfl, by decide⟩

/-- C9 amended: provided the catalog's category names are pairwise
case-insensitively distinct (the spec expects names unique in practice),
issuing the same `UpdateCategoryMetadata` action twice, with both runs
taking the successful exact-match update path, leaves the catalog after the
second run equal to the catalog after the first, and both runs produce the
same success message. -/
theorem update_idempotent (be : Backend) (p : Payload) (c c2 : WPCategory)
    (hnames : be.catalog.Pairwise (fun a b => lowerName a.name ≠ lowerName b.name))
    (hq : truthyOptStr p.categoryName = true)
    (hm : (getCategoryByName be.catalog (p.categoryName.getD "")).exactMatch = some c)
    (hne : (buildUpdatePatch p).isEmpty = false)
    (hf1 : be.updateFails c.id (buildUpdatePatch p) = false)
    (hm2 : (getCategoryByName
        (dispatch be (some ⟨some "UPDATE_CATEGORY_METADATA", p⟩)).catalog
        (p.categoryName.getD "")).exactMatch = some c2)
    (hf2 : be.updateFails c2.id (buildUpdatePatch p) = false) :
    (dispatch
        { catalog := (dispatch be (some ⟨some "UPDATE_CATEGORY_METADATA", p⟩)).catalog
          updateFails := be.updateFails }
        (some ⟨some "UPDATE_CATEGORY_METADATA", p⟩)).catalog =
      (dispatch be (some ⟨some "UPDATE_CATEGORY_METADATA", p⟩)).catalog ∧
    (dispatch
        { catalog := (dispatch be (some ⟨some "UPDATE_CATEGORY_METADATA", p⟩)).catalog
          updateFails := be.updateFails }
        (some ⟨some "UPDATE_CATEGORY_METADATA", p⟩)).actionResponse =
      (dispatch be (some ⟨some "UPDATE_CATEGORY_METADATA", p⟩)).actionResponse := by
  have hd1 : dispatch be (some ⟨some "UPDATE_CATEGORY_METADATA", p⟩) =
      { actionResponse :=
          some ("La catégorie \"" ++ jsOrOpt p.name (p.categoryName.getD "") ++
            "\" a été mise à jour avec succès.")
        updateCalls := [(c.id, buildUpdatePatch p)]
        catalog := applyUpdate be.catalog c.id (buildUpdatePatch p) } := by
    rw [dispatch_update_case]
    exact updateMetadataCase_success be p c hq hm hne hf1
  simp only [hd1] at hm2
  have hd2 : dispatch
      { catalog := applyUpdate be.catalog c.id (buildUpdatePatch p)
        updateFails := be.updateFails }
      (some ⟨some "UPDATE_CATEGORY_METADATA", p⟩) =
      { actionResponse :=
          some ("La catégorie \"" ++ jsOrOpt p.name (p.categoryName.getD "") ++
            "\" a été mise à jour avec succès.")
        updateCalls := [(c2.id, buildUpdatePatch p)]
        catalog := applyUpdate (applyUpdate be.catalog c.id (buildUpdatePatch p))
          c2.id (buildUpdatePatch p) } := by
    rw [dispatch_update_case]
    exact updateMetadataCase_success
      { catalog := applyUpdate be.catalog c.id (buildUpdatePatch p)
        updateFails := be.updateFails } p c2 hq hm2 hne hf2
  have hc2id : c2.id = c.id := by
    apply find_after_update_id be.catalog (p.categoryName.getD "") c c2
      (buildUpdatePatch p) hnames
    · rw [← getCategoryByName_exactMatch]
      exact hm
    · rw [← getCategoryByName_exactMatch]
      exact hm2
  simp only [hd1, hd2]
  rw [hc2id, applyUpdate_idem]
  exact ⟨rfl, trivial⟩

/-- Backend for the C9 witness: one category, `"Shoes"`. -/
def c9wBackend : Backend :=
  { catalog := [⟨1, "Shoes", "sh", "", none, none, none, none⟩]
    updateFails := fun _ _ => false }

/-- Parsed update for the C9 witness: set the description of `"shoes"`. -/
def c9wParsed : ParsedResponse :=
  ⟨some "UPDATE_CATEGORY_METADATA",
    { categoryName := some "shoes", description := some "neuf" }⟩

/-- Witness for C9's amended statement: a unique-name catalog, the same
description update issued twice. -/
theorem update_idempotent_witness :
    (dispatch
        { catalog := (dispatch c9wBackend (some c9wParsed)).catalog
          updateFails := c9wBackend.updateFails }
        (some c9wParsed)).catalog =
      (dispatch c9wBackend (some c9wParsed)).catalog ∧
    (dispatch
        { catalog := (dispatch c9wBackend (some c9wParsed)).catalog
          updateFails := c9wBackend.updateFails }
        (some c9wParsed)).actionResponse =
      (dispatch c9wBackend (some c9wParsed)).actionResponse :=
  update_idempotent c9wBackend
    { categoryName := some "shoes", description := some "neuf" }
    ⟨1, "Shoes", "sh", "", none, none, none, none⟩
    ⟨1, "Shoes", "sh", "neuf", none, none, none, none⟩
    (by simp [c9wBackend]) (by decide) (by rfl) (by decide) (by rfl)
    (by rfl) (by rfl)

/-! ### C10 -/

/-- C10: on the read path, a metadata field that is present but equal to
the empty string renders exactly like an absent field: the whole
`GetCategoryMetadata` answer for a category whose optional fields are all
`some ""` equals the answer for the same category with those fields absent,
and every such slot shows the "Non défini"/"Non définie" placeholder —
while the update path's patch does include `description` when it is the
explicit empty string, the very distinction the read path drops. -/
theorem read_empty_equals_absent (i : Nat) (nm : String) :
    metadataMessage ⟨i, nm, "", "", some ⟨some "", some ""⟩, some "", some "", some ""⟩ =
      metadataMessage ⟨i, nm, "", "", none, none, none, none⟩ ∧
    descriptionOf ⟨i, nm, "", "", some ⟨some "", some ""⟩, some "", some "", some ""⟩ =
      "Non définie" ∧
    slugOf ⟨i, nm, "", "", some ⟨some "", some ""⟩, some "", some "", some ""⟩ =
      "Non défini" ∧
    yoastTitleOf ⟨i, nm, "", "", some ⟨some "", some ""⟩, some "", some "", some ""⟩ =
      "Non défini" ∧
    yoastDescOf ⟨i, nm, "", "", some ⟨some "", some ""⟩, some "", some "", some ""⟩ =
      "Non définie" ∧
    yoastFocusKwOf ⟨i, nm, "", "", some ⟨some "", some ""⟩, some "", some "", some ""⟩ =
      "Non définie" ∧
    (buildUpdatePatch { categoryName := some nm, description := some "" }).description =
      some "" := by
  exact ⟨rfl, rfl, rfl, rfl, rfl, rfl, rfl⟩

end CannaCate
